import Mathlib

/-!
# Verification of the wled-3cx-integration status pipeline

Shallow embedding of the status-detection and reconciliation pipeline of the
`wled-3cx-integration` repository, together with theorems settling claims
C1–C10 about its behavior.  Every definition is translated from the
JavaScript source:

* `src/src/index.js`   — presence scraper (normalization, login wait,
  call-stat / roster extraction, debounce, screenshots);
* `src/src/app.js`     — reconciliation / broadcast core (HTTP + WebSocket
  handlers, `handleStatusChange`, `updateWLEDWithStatus`);
* `src/src/wled-controller.js` — LED device adapter (`updateWLED`).

JavaScript idioms are modelled explicitly: `null`/`undefined`/absent values
become `Option`, truthiness checks on strings test for emptiness, object
lookups become association-list lookups, and the single-threaded effectful
parts (broadcasts, HTTP commands) are modelled by returning the list of
emitted effects alongside the new state.
-/

namespace Wled3cx

/-! ## JavaScript string helpers

Implemented over `List Char` so that every proof obligation on concrete
strings reduces in the kernel. -/

/-- ASCII lower-casing of one character (the status keywords and the raw
signals compared against them are ASCII). -/
def jsLowerChar (c : Char) : Char :=
  if 'A' ≤ c && c ≤ 'Z' then Char.ofNat (c.toNat + 32) else c

/-- Whitespace as removed by JS `String.prototype.trim` (the ASCII cases). -/
def isWsChar (c : Char) : Bool :=
  c = ' ' || c = '\t' || c = '\n' || c = '\r'

/-- Remove leading and trailing whitespace. -/
def trimChars (l : List Char) : List Char :=
  ((l.dropWhile isWsChar).reverse.dropWhile isWsChar).reverse

/-- JS `str.toLowerCase().trim()` as used by `normalizeStatus`. -/
def jsLowerTrim (s : String) : List Char :=
  trimChars (s.toList.map jsLowerChar)

/-- Does `l` contain `key` as a contiguous subsequence?
JS `String.prototype.includes`. -/
def containsSub (l key : List Char) : Bool :=
  match l with
  | [] => key.isEmpty
  | _ :: tl => key.isPrefixOf l || containsSub tl key

/-- JS truthiness of a string: every non-empty string is truthy. -/
def jsTruthyStr (s : String) : Bool := s ≠ ""

/-- JS truthiness of an optional string (`null`/`undefined` and `""` falsy). -/
def jsTruthyOptStr : Option String → Bool
  | none => false
  | some s => jsTruthyStr s

/-! ## Status normalizer — `src/src/index.js` lines 1086–1145

The `statusMap` object literal, in its source (insertion) order; JS
`Object.entries` iterates string keys in insertion order. -/

def statusMap : List (String × String) :=
  [ -- Available statuses
    ("available", "available"),
    ("online", "available"),
    ("ready", "available"),
    ("free", "available"),
    ("active", "available"),
    -- Away statuses
    ("away", "away"),
    ("idle", "away"),
    ("break", "away"),
    ("lunch", "away"),
    ("brb", "away"),
    ("be right back", "away"),
    -- DND statuses
    ("dnd", "dnd"),
    ("busy", "dnd"),
    ("do not disturb", "dnd"),
    ("meeting", "dnd"),
    ("in a meeting", "dnd"),
    ("on break", "dnd"),
    -- Offline statuses
    ("offline", "offline"),
    ("unavailable", "offline"),
    ("logged out", "offline"),
    ("disconnected", "offline"),
    -- On-call statuses
    ("on-call", "on-call"),
    ("in-call", "on-call"),
    ("talking", "on-call"),
    ("on call", "on-call"),
    ("in call", "on-call"),
    ("on the phone", "on-call"),
    ("on a call", "on-call") ]

/-- `normalizeStatus` (`src/src/index.js` 1127–1145).  A JS-falsy argument
(`null`/`undefined`/empty string) yields `null`; otherwise the input is
lower-cased and trimmed, looked up exactly in `statusMap`, and failing that
matched by substring containment against every key in table order. -/
def normalizeStatus (rawStatus : String) : Option String :=
  if rawStatus = "" then none
  else
    let lowerStatus := jsLowerTrim rawStatus
    match statusMap.find? (fun kv => kv.1.toList = lowerStatus) with
    | some kv => some kv.2
    | none =>
      match statusMap.find? (fun kv => containsSub lowerStatus kv.1.toList) with
      | some kv => some kv.2
      | none => none

/-! ## Data model shared by the app and the scraper -/

/-- An RGB triple as carried by the configured status colors. -/
structure Color where
  r : Nat
  g : Nat
  b : Nat
deriving DecidableEq, Repr

/-- Call statistics snapshot (`src/src/app.js` 96–104, `src/src/index.js`
1310–1345).  The wall-clock `lastUpdated` timestamp is not modelled. -/
structure CallStats where
  waitingCalls : Int
  activeCalls : Int
  totalCalls : Int
  servicedCalls : Int
  abandonedCalls : Int
  longestWaiting : Option String
  averageWaiting : Option String
  averageTalking : Option String
  source : String
deriving DecidableEq, Repr

/-- Zeroed statistics with the given `source` tag, as built at
`src/src/index.js` 1310–1318 / 1325–1333 / 1463–1472. -/
def zeroStats (src : String) : CallStats :=
  { waitingCalls := 0, activeCalls := 0, totalCalls := 0, servicedCalls := 0,
    abandonedCalls := 0, longestWaiting := none, averageWaiting := none,
    averageTalking := none, source := src }

/-- One roster entry as pushed by `fetchAllAgentStatuses`
(`src/src/index.js` 1552–1565). -/
structure Agent where
  id : String
  extension : String
  name : String
  status : String
  queues : String
  color : String
deriving DecidableEq, Repr

/-! ## Reconciliation / broadcast core — `src/src/app.js`

Module-level mutable state (lines 90–122) and the effectful handlers.  The
handlers are modelled as state transformers that also return the list of
effects they emit (WebSocket broadcasts and LED HTTP commands), in program
order.  The fire-and-forget `updateWLEDWithStatus` promise is appended where
it is started. -/

/-- `config.wled.statusColors` (`src/src/app.js` 58–65), in source order. -/
def statusColors : List (String × Color) :=
  [ ("available", ⟨0, 255, 0⟩),
    ("ringing", ⟨255, 255, 0⟩),
    ("onCall", ⟨255, 0, 0⟩),
    ("dnd", ⟨128, 0, 128⟩),
    ("away", ⟨255, 165, 0⟩),
    ("offline", ⟨0, 0, 255⟩) ]

/-- JS property lookup `config.wled.statusColors[status]`. -/
def lookupStatusColor (s : String) : Option Color :=
  (statusColors.find? (fun kv => kv.1 = s)).map (·.2)

/-- The mutable application state of `src/src/app.js` (lines 90–122) that the
claims concern.  `latestDebugInfo`, the client set and the timestamp fields
are not modelled. -/
structure AppState where
  currentStatus : String
  isMonitoring : Bool
  latestCallStats : CallStats
  teamStatus : List Agent
  latestAgentStatuses : List Agent
  manualStatusOverride : Bool
deriving DecidableEq, Repr

/-- Initial `latestCallStats` (`src/src/app.js` 96–104). -/
def initialCallStats : CallStats := zeroStats "initial"

/-- The state at process start (`src/src/app.js` 90–122): status `offline`,
monitoring on, zeroed stats, empty roster, override flag off. -/
def initialAppState : AppState :=
  { currentStatus := "offline", isMonitoring := true,
    latestCallStats := initialCallStats, teamStatus := [],
    latestAgentStatuses := [], manualStatusOverride := false }

/-- Observable effects emitted by the core: WebSocket fan-out messages and
LED HTTP commands.  `broadcastStatus` records the `status` and `monitoring`
fields of the emitted message; `broadcastTeamStatus` records that the
broadcast routine was invoked (it no-ops without clients or data). -/
inductive Event where
  | broadcastDebug
  | broadcastCallStats (cs : CallStats)
  | broadcastTeamStatus
  | broadcastStatus (status : String) (monitoring : Bool)
  | wledCommand (c : Color)
  | broadcastWLEDStatus (success : Bool)
deriving DecidableEq, Repr

/-- `updateWLEDWithStatus` (`src/src/app.js` 802–821).  Looks the status up in
`statusColors`; on a hit it calls `updateWLED(color)` (one LED HTTP command,
whose resolved boolean is the parameter `wledSuccess`, since `updateWLED`
always resolves a boolean and never rejects) and broadcasts the outcome; on a
miss the function body falls through and resolves `undefined` (here `none`)
with no effect at all. -/
def updateWLEDWithStatus (status : String) (wledSuccess : Bool) :
    Option Bool × List Event :=
  match lookupStatusColor status with
  | some color =>
    (some wledSuccess, [Event.wledCommand color, Event.broadcastWLEDStatus wledSuccess])
  | none => (none, [])

/-- The `POST /api/status` handler (`src/src/app.js` 251–269).  `status` and
`monitoring` are the (possibly absent) body fields; `if (status)` is a JS
truthiness test, `if (monitoring !== undefined)` a presence test.  The handler
never touches `manualStatusOverride` (that variable is only ever written
`false`, at its declaration on line 120 and in the `clearManualOverride`
WebSocket branch on line 523). -/
def apiStatusPost (st : AppState) (status : Option String)
    (monitoring : Option Bool) (wledSuccess : Bool) : AppState × List Event :=
  let (st1, ev1) :=
    match status with
    | some s =>
      if jsTruthyStr s then
        let (_, evWled) := updateWLEDWithStatus s wledSuccess
        ({ st with currentStatus := s },
         Event.broadcastStatus s st.isMonitoring :: evWled)
      else (st, [])
    | none => (st, [])
  match monitoring with
  | some m =>
    ({ st1 with isMonitoring := m },
     ev1 ++ [Event.broadcastStatus st1.currentStatus m])
  | none => (st1, ev1)

/-- The user-status part of a scrape result (`result.status`). -/
structure UserStatus where
  status : String
  source : String
deriving DecidableEq, Repr

/-- The `agentStatuses` field of a scrape result: JS distinguishes
`undefined` (scraper did not run), `null` (container not found) and an array
(possibly empty — and an empty array is truthy in JS). -/
inductive AgentsResult where
  | missing
  | null
  | agents (l : List Agent)
deriving DecidableEq, Repr

/-- JS truthiness of an `agentStatuses` value: arrays (empty included) are
truthy, `null` and `undefined` are falsy. -/
def AgentsResult.truthy : AgentsResult → Bool
  | .agents _ => true
  | _ => false

/-- One scrape result as passed to `handleStatusChange`
(`src/src/index.js` 1736–1740).  `debugInfo` records whether a truthy
`debugInfo` object is present. -/
structure ScrapeResult where
  status : Option UserStatus
  callStats : Option CallStats
  agentStatuses : AgentsResult
  debugInfo : Bool
deriving DecidableEq, Repr

/-- `handleStatusChange` (`src/src/app.js` 964–1019).  `error` models a truthy
first argument; `result` is `none` when the callback got no result object
(the `|| {}` destructuring default).  Call stats and roster are recorded
unconditionally when present; the user-status block runs only when
`isMonitoring` is set and the status differs from `currentStatus`. -/
def handleStatusChange (st : AppState) (error : Bool)
    (result : Option ScrapeResult) (wledSuccess : Bool) :
    AppState × List Event :=
  let r := result.getD ⟨none, none, .missing, false⟩
  if error then (st, [])
  else
    let ev1 : List Event := if r.debugInfo then [Event.broadcastDebug] else []
    let (st2, ev2) :=
      match r.callStats with
      | some cs => ({ st with latestCallStats := cs }, [Event.broadcastCallStats cs])
      | none => (st, [])
    let (st3, ev3) :=
      match r.agentStatuses with
      | .agents l =>
        ({ st2 with latestAgentStatuses := l, teamStatus := l },
         [Event.broadcastTeamStatus])
      | _ => (st2, [])
    match r.status with
    | some us =>
      if st3.isMonitoring && us.status ≠ st3.currentStatus then
        let (_, evWled) := updateWLEDWithStatus us.status wledSuccess
        ({ st3 with currentStatus := us.status },
         ev1 ++ ev2 ++ ev3 ++
           (Event.broadcastStatus us.status st3.isMonitoring :: evWled))
      else (st3, ev1 ++ ev2 ++ ev3)
    | none => (st3, ev1 ++ ev2 ++ ev3)

/-! ## Manual-login wait — `src/src/index.js` 413–607 and 677–878 -/

/-- One page snapshot as collected by the `waitForLogin` poll loop
(`src/src/index.js` 689–758).  `loginFormSelector` records whether the
login-form selector matched; the exposed `elements.loginForm` is that value
conjoined with `is3CXUrl` (line 702). -/
structure PageInfo where
  is3CXUrl : Bool
  loginFormSelector : Bool
  userMenu : Bool
  switchboard : Bool
  presenceIndicator : Bool
  hasAuthToken : Bool
deriving DecidableEq, Repr

/-- `pageInfo.elements.loginForm` (`src/src/index.js` 702–704). -/
def loginFormVisible (p : PageInfo) : Bool :=
  p.is3CXUrl && p.loginFormSelector

/-- The login-success composite signal (`src/src/index.js` 767–773). -/
def is3CXLoggedIn (p : PageInfo) : Bool :=
  p.is3CXUrl && !(loginFormVisible p) &&
    (p.userMenu || p.switchboard || p.presenceIndicator || p.hasAuthToken)

/-- `waitForLogin` (`src/src/index.js` 677–878).  The argument is the finite
sequence of page snapshots the 5-second poll loop observes before the
10-minute ceiling (`maxWaitTime = 10 * 60 * 1000`, so at most 120 polls).
The loop exits `true` at the first snapshot satisfying `is3CXLoggedIn` and
otherwise runs the list out and returns `false` (lines 860–871); both exits
are returns, never throws (the outer catch also returns `false`). -/
def waitForLogin : List PageInfo → Bool
  | [] => false
  | p :: rest => if is3CXLoggedIn p then true else waitForLogin rest

/-- The inputs of one `initialize` run that matter after a manual login was
required (`src/src/index.js` 555–602): the snapshots seen by the
`waitForLogin` poll loop and the `navigateToSwitchboard` outcome. -/
structure InitRun where
  loginRequired : Bool
  loginPolls : List PageInfo
  navigateSuccess : Bool
deriving DecidableEq, Repr

/-- The result of `initialize` (`src/src/index.js` 413–607) on a run whose
steps complete without throwing.  When login is required, the handler awaits
`waitForLogin` on line 564 and discards its boolean; a failed
`navigateToSwitchboard` is only logged (lines 594–597); the function then
starts the refresh interval and returns `true` on line 602.  The catch on
lines 603–606 returns `false`, but a login timeout does not throw, so it
never reaches that catch. -/
def initializeResult (run : InitRun) : Bool :=
  if run.loginRequired then
    let _loginResult := waitForLogin run.loginPolls
    true
  else
    true

/-! ## Roster extraction — `fetchAllAgentStatuses`, `src/src/index.js` 1486–1590 -/

/-- The name element of a roster item: `title` attribute (possibly absent)
and text content. -/
structure NameEl where
  title : Option String
  text : String
deriving DecidableEq, Repr

/-- One `div[data-qa="agent-item"]` as read by the page evaluation
(`src/src/index.js` 1508–1570).  `numberText` is the text of the
`div[data-qa="number"]` child (`none` when that child is absent), likewise
`nameEl` and `queuesText`; `indicatorClasses` is the `className` of the
status-indicator span found inside the number element, when present. -/
structure AgentItem where
  numberText : Option String
  nameEl : Option NameEl
  queuesText : Option String
  indicatorClasses : Option String
deriving DecidableEq, Repr

/-- The leading digit run of a character list, for `text.match(/\d+/)`:
first occurrence of one-or-more digits, maximal. -/
def takeDigits : List Char → List Char
  | [] => []
  | c :: tl => if c.isDigit then c :: takeDigits tl else []

/-- `extensionText.match(/\d+/)` followed by `match[0]`
(`src/src/index.js` 1524–1525): the first maximal digit run, or `none`. -/
def firstDigitRun : List Char → Option (List Char)
  | [] => none
  | c :: tl => if c.isDigit then some (c :: takeDigits tl) else firstDigitRun tl

/-- JS `className.split(' ')`: split on each single space character
(adjacent spaces produce empty fragments, which match no known status). -/
def splitOnSpaceAux (cur : List Char) : List Char → List (List Char)
  | [] => [cur.reverse]
  | c :: tl =>
    if c = ' ' then cur.reverse :: splitOnSpaceAux [] tl
    else splitOnSpaceAux (c :: cur) tl

/-- Split a class string into its space-separated fragments. -/
def splitOnSpace (l : List Char) : List (List Char) :=
  splitOnSpaceAux [] l

/-- The closed token set of `fetchAllAgentStatuses`
(`src/src/index.js` 1537), in source order. -/
def knownStatuses : List String :=
  ["available", "away", "dnd", "lunch", "business-trip", "oncall", "on-call",
   "onCall", "ringing", "off"]

/-- The class-token loop of `fetchAllAgentStatuses`
(`src/src/index.js` 1532–1549): default `offline`; for the first class
fragment that case-insensitively equals a known token, map `off` to
`offline` and `on-call`/`oncall` to `onCall`, else keep the token. -/
def agentStatusFromClasses (classes : Option String) : String :=
  match classes with
  | none => "offline"
  | some cl =>
    match (splitOnSpace cl.toList).findSome?
        (fun c => knownStatuses.find?
          (fun s => c.map jsLowerChar = s.toList.map jsLowerChar)) with
    | some matched =>
      if matched = "off" then "offline"
      else if matched = "on-call" || matched = "oncall" then "onCall"
      else matched
    | none => "offline"

/-- The roster display-color mapping (`src/src/index.js` 1559–1564). -/
def agentColor (status : String) : String :=
  if status = "available" then "green"
  else if status = "onCall" then "red"
  else if status = "ringing" then "yellow"
  else if status = "dnd" then "purple"
  else if status = "away" then "orange"
  else "gray"

/-- Per-item extraction of `fetchAllAgentStatuses`
(`src/src/index.js` 1508–1570): requires both the number and the name
element; the extension is the first digit run of the trimmed number text;
the name is the `title` attribute when truthy, else the trimmed text; the
entry is pushed only when both extension and name are truthy. -/
def extractAgent (item : AgentItem) : Option Agent :=
  match item.numberText, item.nameEl with
  | some numText, some nameEl =>
    let extension := firstDigitRun (trimChars numText.toList)
    let name :=
      if jsTruthyOptStr nameEl.title then nameEl.title.getD ""
      else String.mk (trimChars nameEl.text.toList)
    let queues :=
      match item.queuesText with
      | some q => String.mk (trimChars q.toList)
      | none => ""
    let status := agentStatusFromClasses item.indicatorClasses
    match extension with
    | some ext =>
      if jsTruthyStr name then
        some { id := String.mk ext, extension := String.mk ext, name := name,
               status := status, queues := queues, color := agentColor status }
      else none
    | none => none
  | _, _ => none

/-- The page evaluation of `fetchAllAgentStatuses`
(`src/src/index.js` 1494–1574): `none` exactly when the
`app-all-queue-agents` container is absent (line 1499); an explicit empty
array when the container holds zero `agent-item` divs (line 1505); else the
extracted entries. -/
def fetchAgentsEval (page : Option (List AgentItem)) : Option (List Agent) :=
  match page with
  | none => none
  | some items =>
    if items.length = 0 then some []
    else some (items.filterMap extractAgent)

/-- `fetchAllAgentStatuses` (`src/src/index.js` 1486–1590).  `browserOk`
covers the guard on line 1487 (browser/page present and not closed) together
with the catch on lines 1584–1589 (a session failure during the evaluation),
both of which return `null`; the evaluation itself is the pure page read
above. -/
def fetchAllAgentStatuses (browserOk : Bool) (page : Option (List AgentItem)) :
    Option (List Agent) :=
  if !browserOk then none
  else fetchAgentsEval page

/-! ## Call-stat extraction — `fetchCallStats`, `src/src/index.js` 1304–1474 -/

/-- The queue-stat table: the td texts of the `.qst-l-td` header row and the
`.qst-d-td` data row.  `none` stands for any of the structure being absent
(no `queue-stat` element, or a missing header or data row, lines 1351–1359),
all of which leave `foundStats` false. -/
structure QueueStatTable where
  headers : List String
  dataCells : List String
deriving DecidableEq, Repr

/-- `headers[i].textContent.trim().toLowerCase()` (`src/src/index.js` 1367). -/
def jsTrimLower (s : String) : List Char :=
  (trimChars s.toList).map jsLowerChar

/-- The `statsMap` built on lines 1365–1370: pairs of normalized header text
and raw data text, over the common prefix of the two cell lists, in order. -/
def statsMapOf (t : QueueStatTable) : List (List Char × String) :=
  (t.headers.zip t.dataCells).map (fun hd => (jsTrimLower hd.1, hd.2))

/-- JS object read `statsMap[key]`: the last assignment wins when a header
text repeats. -/
def jsObjGet (m : List (List Char × String)) (k : List Char) : Option String :=
  (m.reverse.find? (fun kv => kv.1 = k)).map (·.2)

/-- `parseInt(str, 10)`: skip leading whitespace, optional sign, then a
non-empty digit prefix; `none` for NaN. -/
def jsParseInt (s : String) : Option Int :=
  let l := s.toList.dropWhile isWsChar
  match l with
  | '-' :: rest =>
    match takeDigits rest with
    | [] => none
    | ds => some (-(Nat.ofDigits 10 ((ds.map (fun c => c.toNat - 48)).reverse) : Int))
  | '+' :: rest =>
    match takeDigits rest with
    | [] => none
    | ds => some (Nat.ofDigits 10 ((ds.map (fun c => c.toNat - 48)).reverse) : Int)
  | _ =>
    match takeDigits l with
    | [] => none
    | ds => some (Nat.ofDigits 10 ((ds.map (fun c => c.toNat - 48)).reverse) : Int)

/-- `parseInt(v, 10) || 0` (`src/src/index.js` 1374–1388): NaN collapses to 0
(and a parsed 0 stays 0). -/
def jsParseIntOr0 (s : String) : Int :=
  (jsParseInt s).getD 0

/-- Result of the stats page evaluation (`src/src/index.js` 1338–1433):
the stats object (or `null`), the source tag, and the `foundStats` flag. -/
structure StatsEval where
  stats : Option CallStats
  source : String
  foundStats : Bool
deriving DecidableEq, Repr

/-- The page evaluation of `fetchCallStats` (`src/src/index.js` 1338–1433).
Each of the three named fields is extracted when its header key is present
(a presence test, line 1373/1379/1385); `totalCalls` is computed as
serviced + abandoned + waiting (lines 1392–1396), never read from the page;
the optional duration fields are copied verbatim when present. -/
def fetchCallStatsEval (table : Option QueueStatTable) : StatsEval :=
  match table with
  | none => { stats := none, source := "none", foundStats := false }
  | some t =>
    let m := statsMapOf t
    let waitingRaw := jsObjGet m "waiting calls".toList
    let servicedRaw := jsObjGet m "serviced calls".toList
    let abandonedRaw := jsObjGet m "abandoned calls".toList
    let waiting := match waitingRaw with | some v => jsParseIntOr0 v | none => 0
    let serviced := match servicedRaw with | some v => jsParseIntOr0 v | none => 0
    let abandoned := match abandonedRaw with | some v => jsParseIntOr0 v | none => 0
    let found := waitingRaw.isSome || servicedRaw.isSome || abandonedRaw.isSome
    if found then
      { stats := some
          { waitingCalls := waiting, activeCalls := 0,
            totalCalls := serviced + abandoned + waiting,
            servicedCalls := serviced, abandonedCalls := abandoned,
            longestWaiting := jsObjGet m "longest waiting".toList,
            averageWaiting := jsObjGet m "average waiting".toList,
            averageTalking := jsObjGet m "average talking".toList,
            source := "queue-stat-element" },
        source := "queue-stat-element", foundStats := true }
    else { stats := none, source := "none", foundStats := false }

/-- `fetchCallStats` (`src/src/index.js` 1304–1474).  Returns the zeroed
default with source `default` when browser or page is unavailable (lines
1306–1319), the zeroed default with source `error` when the outer catch
fires (lines 1461–1473), `null` when the inner stats extraction throws
(lines 1454–1460), the enhanced stats when found, and the zeroed default
with source `web` otherwise (lines 1442–1453). -/
def fetchCallStats (browserOk : Bool) (table : Option QueueStatTable)
    (evalThrew : Bool) (outerThrew : Bool) : Option CallStats :=
  if !browserOk then some (zeroStats "default")
  else if outerThrew then some (zeroStats "error")
  else if evalThrew then none
  else
    let r := fetchCallStatsEval table
    match r.stats with
    | some s => if r.foundStats then some { s with source := r.source } else some (zeroStats "web")
    | none => some (zeroStats "web")

/-! ## Debounce — `collectAndSendStatusData`, `src/src/index.js` 1676–1775 -/

/-- The `source` argument of `collectAndSendStatusData`. -/
inductive TriggerSource where
  | initial
  | interval
  | observer
deriving DecidableEq, Repr

/-- The debounce delay chosen on `src/src/index.js` line 1774:
`source === 'observer' ? 500 : 0`. -/
def debounceDelay : TriggerSource → Nat
  | .observer => 500
  | _ => 0

/-- The `debounceTimer` mechanics of `collectAndSendStatusData`
(`src/src/index.js` 1677–1682 and 1774): each invocation at time `t` clears
any still-pending timer and schedules the collection cycle for
`t + debounceDelay source`.  Given the chronological list of invocations and
the currently pending fire time, this returns the times at which collection
cycles actually execute.  A pending timer whose fire time has passed when
the next invocation arrives has already fired (clearTimeout on a fired
timer is a no-op). -/
def runDebounce : List (Nat × TriggerSource) → Option Nat → List Nat
  | [], pending =>
    match pending with
    | none => []
    | some ft => [ft]
  | (t, s) :: rest, pending =>
    match pending with
    | none => runDebounce rest (some (t + debounceDelay s))
    | some ft =>
      if ft ≤ t then ft :: runDebounce rest (some (t + debounceDelay s))
      else runDebounce rest (some (t + debounceDelay s))

/-! ## Screenshot caps — `takeScreenshot`, `src/src/index.js` 1960–2016 -/

/-- `config.screenshots` (`src/src/index.js` 380–386): enable flag, minimum
spacing in ms (default 60000) and per-session cap (default 20). -/
structure ScreenshotConfig where
  enabled : Bool
  minInterval : Nat
  maxPerSession : Nat
deriving DecidableEq, Repr

/-- The screenshot tracking state (`src/src/index.js` 398–400). -/
structure ScreenshotState where
  lastScreenshotTime : Nat
  screenshotCount : Nat
deriving DecidableEq, Repr

/-- `takeScreenshot` (`src/src/index.js` 1960–2016): each of the three caps
is skipped when `force` is set (lines 1963, 1969, 1977); passing the caps
updates the tracking state (lines 1983–1984) before the page check; the
returned boolean is whether a screenshot is actually taken (a non-null
path).  Times are naturals with `now ≥ lastScreenshotTime`, matching the
monotone `Date.now()`. -/
def takeScreenshot (cfg : ScreenshotConfig) (st : ScreenshotState)
    (now : Nat) (force : Bool) (pageOk : Bool) : Bool × ScreenshotState :=
  if !cfg.enabled && !force then (false, st)
  else if st.screenshotCount ≥ cfg.maxPerSession && !force then (false, st)
  else if now - st.lastScreenshotTime < cfg.minInterval && !force then (false, st)
  else
    let st' : ScreenshotState :=
      { lastScreenshotTime := now, screenshotCount := st.screenshotCount + 1 }
    if !pageOk then (false, st')
    else (true, st')

/-! ## LED device adapter — `updateWLED`, `src/src/wled-controller.js` 54–106 -/

/-- The adapter configuration (`src/src/wled-controller.js` 24–39):
`ipAddress` may be unset, brightness and transition come from `parseInt` of
environment values. -/
structure WledConfig where
  ipAddress : Option String
  brightness : Int
  transition : Int
deriving DecidableEq, Repr

/-- The caller-supplied color object: each component is the `parseInt` view
of the field (`none` for a missing or non-numeric component, which
`parseInt(x) || 0` collapses to 0). -/
structure ColorInput where
  r : Option Int
  g : Option Int
  b : Option Int
deriving DecidableEq, Repr

/-- `Math.min(255, Math.max(0, v))` followed by the cast into the payload. -/
def clamp255 (v : Int) : Nat :=
  (min 255 (max 0 v)).toNat

/-- The single HTTP POST body built on `src/src/wled-controller.js` 74–86.
`transition` is the configured millisecond value divided by 1000 (exact
rational division, the device-native seconds); `col` is `seg[0].col[0]`. -/
structure WledPayload where
  powerOn : Bool
  bri : Int
  transition : ℚ
  col : Color
  fx : Nat
  sx : Nat
  ix : Nat
deriving DecidableEq, Repr

/-- `updateWLED` (`src/src/wled-controller.js` 54–106).  `postOk` is whether
the `axios.post` succeeds; the result is the resolved boolean together with
the POST body if one was issued.  A missing IP address or an invalid color
throws inside the outer try and is caught on line 102 (`return false`); an
axios failure is logged, rethrown, and caught by the same outer catch.  The
function always resolves a boolean — no path rejects. -/
def updateWLED (cfg : WledConfig) (color : Option ColorInput) (postOk : Bool) :
    Bool × Option WledPayload :=
  match cfg.ipAddress with
  | none => (false, none)
  | some _ =>
    match color with
    | none => (false, none)
    | some c =>
      let payload : WledPayload :=
        { powerOn := true, bri := cfg.brightness,
          transition := (cfg.transition : ℚ) / 1000,
          col := ⟨clamp255 (c.r.getD 0), clamp255 (c.g.getD 0), clamp255 (c.b.getD 0)⟩,
          fx := 0, sx := 128, ix := 128 }
      if postOk then (true, some payload)
      else (false, some payload)

end Wled3cx

namespace Wled3cx

/-! ## Helper lemmas -/

/-- A character list is a prefix of itself (Boolean version). -/
lemma isPrefixOf_self_chars : ∀ l : List Char, l.isPrefixOf l = true
  | [] => rfl
  | c :: tl => by simp [List.isPrefixOf, isPrefixOf_self_chars tl]

/-- A character list contains itself as a substring. -/
lemma containsSub_self : ∀ l : List Char, containsSub l l = true
  | [] => rfl
  | c :: tl => by simp [containsSub, isPrefixOf_self_chars]

/-! ## Claim C1 — status normalization table -/

/-- Claim C1 counterexample: the spec's keyword table promises a `ringing`
entry, but `statusMap` has no key that `"ringing"` matches exactly or by
substring, so `normalizeStatus` returns `null` on it; moreover the on-call
keywords map to the hyphenated string `on-call`, which is not the `onCall`
member of the closed status vocabulary (the `statusColors` keys). -/
theorem claim1_counterexample :
    normalizeStatus "ringing" = none ∧
    normalizeStatus "on call" = some "on-call" ∧
    lookupStatusColor "on-call" = none := by
  refine ⟨by decide, by decide, by decide⟩

/-- Claim C1 (corrected): for the raw strings of the spec's keyword table
that actually appear in `statusMap`, `normalizeStatus` returns the table
value — except that there is no `ringing` entry (that input yields `null`)
and the on-call keywords yield the hyphenated string `on-call` rather than
the `onCall` enum key; and for every string matching no table key exactly or
by substring, `normalizeStatus` returns `null`. -/
theorem claim1_amended :
    (normalizeStatus "available" = some "available" ∧
     normalizeStatus "dnd" = some "dnd" ∧
     normalizeStatus "busy" = some "dnd" ∧
     normalizeStatus "do not disturb" = some "dnd" ∧
     normalizeStatus "meeting" = some "dnd" ∧
     normalizeStatus "ringing" = none ∧
     normalizeStatus "on call" = some "on-call" ∧
     normalizeStatus "on the phone" = some "on-call" ∧
     normalizeStatus "talking" = some "on-call" ∧
     normalizeStatus "away" = some "away" ∧
     normalizeStatus "idle" = some "away" ∧
     normalizeStatus "lunch" = some "away" ∧
     normalizeStatus "offline" = some "offline" ∧
     normalizeStatus "unavailable" = some "offline" ∧
     normalizeStatus "logged out" = some "offline") ∧
    (∀ s : String,
      (∀ kv ∈ statusMap, containsSub (jsLowerTrim s) kv.1.toList = false) →
      normalizeStatus s = none) := by
  refine ⟨by decide, ?_⟩
  intro s hnone
  have h2 : statusMap.find? (fun kv => containsSub (jsLowerTrim s) kv.1.toList) = none := by
    rw [List.find?_eq_none]
    intro kv hkv hc
    rw [hnone kv hkv] at hc
    exact Bool.false_ne_true hc
  have h1 : statusMap.find? (fun kv => kv.1.toList = jsLowerTrim s) = none := by
    rw [List.find?_eq_none]
    intro kv hkv he
    have heq : kv.1.toList = jsLowerTrim s := of_decide_eq_true he
    have hfalse := hnone kv hkv
    rw [heq, containsSub_self] at hfalse
    exact Bool.false_ne_true hfalse.symm
  by_cases hs : s = ""
  · simp [normalizeStatus, hs]
  · simp only [String.toList] at h1 h2
    simp [normalizeStatus, hs, h1, h2]

/-- Claim C1 witness: a string matching no table key normalizes to `null`. -/
theorem claim1_amended_witness :
    (∀ kv ∈ statusMap, containsSub (jsLowerTrim "xyzq") kv.1.toList = false) ∧
    normalizeStatus "xyzq" = none :=
  ⟨by decide, claim1_amended.2 "xyzq" (by decide)⟩

/-! ## Claim C2 — manual-login wait timeout -/

/-- Claim C2 counterexample: a full run of the 10-minute wait loop (120
polls, all showing the login form and no success marker) makes
`waitForLogin` resolve `false`, but `initialize` discards that result and
resolves `true`, not the claimed `false`. -/
theorem claim2_counterexample :
    waitForLogin (List.replicate 120 ⟨true, true, false, false, false, false⟩) = false ∧
    initializeResult
        ⟨true, List.replicate 120 ⟨true, true, false, false, false, false⟩, true⟩
      = true := by
  refine ⟨by decide, by decide⟩

/-- Claim C2 (corrected): when every poll of the wait loop lacks the
login-success markers, `waitForLogin` resolves `false` without throwing, and
`initialize` — which ignores that boolean — completes without an exception
and resolves `true` (the process stays alive; the claimed `false` result is
what `waitForLogin`, not `initialize`, returns). -/
theorem claim2_amended :
    ∀ (polls : List PageInfo) (nav : Bool),
      (∀ p ∈ polls, is3CXLoggedIn p = false) →
      waitForLogin polls = false ∧ initializeResult ⟨true, polls, nav⟩ = true := by
  intro polls nav h
  refine ⟨?_, rfl⟩
  induction polls with
  | nil => rfl
  | cons p rest ih =>
    have hp := h p (by simp)
    simp only [waitForLogin, hp, Bool.false_eq_true, if_false]
    exact ih (fun q hq => h q (by simp [hq]))

/-- Claim C2 witness: the corrected statement at a concrete stuck-at-login
trace. -/
theorem claim2_amended_witness :
    (∀ p ∈ List.replicate 3 (⟨true, true, false, false, false, false⟩ : PageInfo),
      is3CXLoggedIn p = false) ∧
    (waitForLogin (List.replicate 3 ⟨true, true, false, false, false, false⟩) = false ∧
     initializeResult
        ⟨true, List.replicate 3 ⟨true, true, false, false, false, false⟩, true⟩ = true) :=
  ⟨by decide, claim2_amended _ true (by decide)⟩

/-! ## Claim C3 — manual status submission and the override flag -/

/-- Claim C3 (code_bug): evaluating the `POST /api/status` handler on a
manual submission of `dnd` shows that — with monitoring on or off — the
submitted status becomes `currentStatus`, the new status is broadcast, and
the LED path is driven with the `dnd` color; but `manualStatusOverride`
stays `false`: no code path of `src/src/app.js` ever sets it `true`, even
though the module declares the 15-minute `MANUAL_OVERRIDE_TIMEOUT`, exposes
the remaining window in its debug payload and accepts a `clearManualOverride`
command, so the override window claimed by the spec never starts. -/
theorem claim3_code_divergence :
    (let r := apiStatusPost initialAppState (some "dnd") none true
     r.1.currentStatus = "dnd" ∧
     r.1.manualStatusOverride = false ∧
     r.2 = [Event.broadcastStatus "dnd" true, Event.wledCommand ⟨128, 0, 128⟩,
            Event.broadcastWLEDStatus true]) ∧
    (let r := apiStatusPost { initialAppState with isMonitoring := false }
        (some "dnd") none true
     r.1.currentStatus = "dnd" ∧
     r.1.manualStatusOverride = false ∧
     r.2 = [Event.broadcastStatus "dnd" false, Event.wledCommand ⟨128, 0, 128⟩,
            Event.broadcastWLEDStatus true]) := by
  refine ⟨by decide, by decide⟩

/-! ## Claim C4 — scraper status while monitoring is disabled -/

/-- Claim C4 counterexample: with monitoring disabled, a scraped `available`
status arriving at the initial (`offline`) state issues no LED command — but
it is also not recorded: the handler leaves the whole state unchanged
(`currentStatus` stays `offline`) and broadcasts nothing, so the snapshot
does not reflect the scraped status as claimed. -/
theorem claim4_counterexample :
    handleStatusChange { initialAppState with isMonitoring := false } false
        (some ⟨some ⟨"available", "status-indicators"⟩, none, .missing, false⟩) true
      = ({ initialAppState with isMonitoring := false }, []) ∧
    ({ initialAppState with isMonitoring := false } : AppState).currentStatus
      = "offline" := by
  refine ⟨by decide, by decide⟩

/-- Claim C4 (corrected): when monitoring is disabled, a scraper result
issues no LED command and no status broadcast, and the scraped user status
is NOT recorded (`currentStatus` is left unchanged); only the call stats and
the roster carried by the same result are still recorded for dashboard
display. -/
theorem claim4_amended :
    ∀ (st : AppState) (r : ScrapeResult) (u : Bool),
      st.isMonitoring = false →
      (handleStatusChange st false (some r) u).1.currentStatus = st.currentStatus ∧
      (∀ c, Event.wledCommand c ∉ (handleStatusChange st false (some r) u).2) ∧
      (∀ s m, Event.broadcastStatus s m ∉ (handleStatusChange st false (some r) u).2) ∧
      (∀ cs, r.callStats = some cs →
        (handleStatusChange st false (some r) u).1.latestCallStats = cs) ∧
      (∀ l, r.agentStatuses = AgentsResult.agents l →
        (handleStatusChange st false (some r) u).1.teamStatus = l ∧
        (handleStatusChange st false (some r) u).1.latestAgentStatuses = l) := by
  intro st r u hmon
  rcases r with ⟨us, cs, ag, dbg⟩
  rcases us with _ | us <;> rcases cs with _ | cs <;> rcases ag with _ | _ | l <;>
    simp_all [handleStatusChange]

/-- Claim C4 witness: the corrected statement at a concrete disabled-state
input carrying call stats and a roster. -/
theorem claim4_amended_witness :
    ({ initialAppState with isMonitoring := false } : AppState).isMonitoring = false ∧
    (handleStatusChange { initialAppState with isMonitoring := false } false
        (some ⟨some ⟨"available", "x"⟩, some (zeroStats "web"),
               AgentsResult.agents [], true⟩) true).1.currentStatus
      = ({ initialAppState with isMonitoring := false } : AppState).currentStatus :=
  ⟨by decide,
   (claim4_amended { initialAppState with isMonitoring := false }
      ⟨some ⟨"available", "x"⟩, some (zeroStats "web"), AgentsResult.agents [], true⟩
      true (by decide)).1⟩

/-! ## Claim C5 — roster null vs empty array -/

/-- Claim C5 (confirmed): with the browser session available, the roster
scrape returns `null` exactly when the `app-all-queue-agents` container is
absent and an explicit empty array when the container lists zero agent
items; and `handleStatusChange` leaves the stored roster untouched on a
`null` result while overwriting it with the empty list on an empty-array
result (an empty JS array is truthy). -/
theorem claim5_roster :
    (∀ page : Option (List AgentItem),
      fetchAllAgentStatuses true page = none ↔ page = none) ∧
    fetchAllAgentStatuses true (some []) = some [] ∧
    (∀ (st : AppState) (r : ScrapeResult) (u : Bool),
      r.agentStatuses = AgentsResult.null →
        (handleStatusChange st false (some r) u).1.teamStatus = st.teamStatus ∧
        (handleStatusChange st false (some r) u).1.latestAgentStatuses
          = st.latestAgentStatuses) ∧
    (∀ (st : AppState) (r : ScrapeResult) (u : Bool),
      r.agentStatuses = AgentsResult.agents [] →
        (handleStatusChange st false (some r) u).1.teamStatus = [] ∧
        (handleStatusChange st false (some r) u).1.latestAgentStatuses = []) := by
  refine ⟨?_, by decide, ?_, ?_⟩
  · intro page
    cases page with
    | none => simp [fetchAllAgentStatuses, fetchAgentsEval]
    | some items =>
      simp only [fetchAllAgentStatuses, fetchAgentsEval, Bool.not_true, if_false]
      constructor
      · intro h
        by_cases hlen : items.length = 0 <;> simp [hlen] at h
      · intro h
        exact absurd h (by simp)
  · intro st r u hag
    rcases r with ⟨us, cs, ag, dbg⟩
    simp only at hag
    subst hag
    rcases us with _ | us <;> rcases cs with _ | cs <;>
        simp_all [handleStatusChange] <;>
      exact ⟨by split <;> simp, by split <;> simp⟩
  · intro st r u hag
    rcases r with ⟨us, cs, ag, dbg⟩
    simp only at hag
    subst hag
    rcases us with _ | us <;> rcases cs with _ | cs <;>
        simp_all [handleStatusChange] <;>
      exact ⟨by split <;> simp, by split <;> simp⟩

/-- Claim C5 witness: both Core behaviors at concrete inputs, plus the
scraper equivalence at the absent-container page. -/
theorem claim5_roster_witness :
    (fetchAllAgentStatuses true none = none ↔ (none : Option (List AgentItem)) = none) ∧
    ((⟨none, none, AgentsResult.null, false⟩ : ScrapeResult).agentStatuses
        = AgentsResult.null ∧
      (handleStatusChange initialAppState false
          (some ⟨none, none, AgentsResult.null, false⟩) true).1.teamStatus
        = initialAppState.teamStatus) ∧
    ((⟨none, none, AgentsResult.agents [], false⟩ : ScrapeResult).agentStatuses
        = AgentsResult.agents [] ∧
      (handleStatusChange initialAppState false
          (some ⟨none, none, AgentsResult.agents [], false⟩) true).1.teamStatus
        = []) :=
  ⟨claim5_roster.1 none,
   ⟨rfl, (claim5_roster.2.2.1 initialAppState
      ⟨none, none, AgentsResult.null, false⟩ true rfl).1⟩,
   ⟨rfl, (claim5_roster.2.2.2 initialAppState
      ⟨none, none, AgentsResult.agents [], false⟩ true rfl).1⟩⟩

/-! ## Claim C6 — LED adapter failure and payload shape -/

/-- Claim C6 (confirmed): `updateWLED` resolves `false` for every color
input whenever the device POST fails (and on its throwing paths the
exception is caught, never propagated — the function is total and always
resolves a boolean); and on the success path the single POST body has
`on:true`, the configured brightness, transition equal to the configured
milliseconds divided by 1000, and one segment with `fx:0`, `sx:128`,
`ix:128` and the clamped RGB triple as `col`. -/
theorem claim6_adapter :
    (∀ (cfg : WledConfig) (color : Option ColorInput),
      (updateWLED cfg color false).1 = false) ∧
    (∀ (cfg : WledConfig) (ip : String) (c : ColorInput),
      cfg.ipAddress = some ip →
      updateWLED cfg (some c) true =
        (true, some
          { powerOn := true, bri := cfg.brightness,
            transition := (cfg.transition : ℚ) / 1000,
            col := ⟨clamp255 (c.r.getD 0), clamp255 (c.g.getD 0),
                    clamp255 (c.b.getD 0)⟩,
            fx := 0, sx := 128, ix := 128 })) := by
  constructor
  · intro cfg color
    rcases cfg with ⟨ip, bri, tr⟩
    cases ip <;> cases color <;> simp [updateWLED]
  · intro cfg ip c hip
    simp [updateWLED, hip]

/-- Claim C6 witness: the adapter at the repository's default configuration
(brightness 128, transition 1000 ms → 1 s) on pure red, failing and
succeeding. -/
theorem claim6_adapter_witness :
    (updateWLED ⟨some "192.168.111.50", 128, 1000⟩
        (some ⟨some 255, some 0, some 0⟩) false).1 = false ∧
    updateWLED ⟨some "192.168.111.50", 128, 1000⟩
        (some ⟨some 255, some 0, some 0⟩) true =
      (true, some
        { powerOn := true, bri := 128, transition := 1,
          col := ⟨255, 0, 0⟩, fx := 0, sx := 128, ix := 128 }) := by
  refine ⟨claim6_adapter.1 _ _, ?_⟩
  rw [claim6_adapter.2 ⟨some "192.168.111.50", 128, 1000⟩ "192.168.111.50"
    ⟨some 255, some 0, some 0⟩ rfl]
  have ht : ((1000 : Int) : ℚ) / 1000 = 1 := by norm_num
  simp only [ht]
  decide

/-! ## Claim C7 — derived total of call statistics -/

/-- The stats object produced by the page evaluation always carries the
derived total. -/
lemma fetchCallStatsEval_total (table : Option QueueStatTable) (s : CallStats)
    (h : (fetchCallStatsEval table).stats = some s) :
    s.totalCalls = s.waitingCalls + s.servicedCalls + s.abandonedCalls := by
  cases table with
  | none => simp [fetchCallStatsEval] at h
  | some t =>
    simp only [fetchCallStatsEval] at h
    split at h
    · rw [Option.some_inj] at h
      subst h
      simp only
      omega
    · simp at h

/-- Claim C7 (confirmed): every `CallStats` value that `fetchCallStats`
returns — scraped from a table, or any of the zeroed defaults (browser
unavailable, no table structure, outer error) — satisfies
`totalCalls = waitingCalls + servicedCalls + abandonedCalls`; the total is
derived, never read from the page. -/
theorem claim7_total_calls :
    ∀ (browserOk : Bool) (table : Option QueueStatTable)
      (evalThrew outerThrew : Bool) (s : CallStats),
      fetchCallStats browserOk table evalThrew outerThrew = some s →
      s.totalCalls = s.waitingCalls + s.servicedCalls + s.abandonedCalls := by
  intro b table et ot s h
  simp only [fetchCallStats] at h
  split_ifs at h with hb ho he hf
  · rw [Option.some_inj] at h
    subst h
    decide
  · rw [Option.some_inj] at h
    subst h
    decide
  · rcases hst : (fetchCallStatsEval table).stats with _ | cs
    · simp only [hst, Option.some_inj] at h
      subst h
      decide
    · simp only [hst, Option.some_inj] at h
      subst h
      have hcs := fetchCallStatsEval_total table cs hst
      simpa using hcs
  · rcases hst : (fetchCallStatsEval table).stats with _ | cs <;>
      simp only [hst, Option.some_inj] at h <;> subst h <;> decide

/-- Claim C7 witness: a concrete well-formed table (waiting 2, serviced 3,
abandoned 4) yields total 9, and the theorem applies to it. -/
theorem claim7_total_calls_witness :
    fetchCallStats true
        (some ⟨["Waiting Calls", "Serviced Calls", "Abandoned Calls"],
               ["2", "3", "4"]⟩) false false
      = some { waitingCalls := 2, activeCalls := 0, totalCalls := 9,
               servicedCalls := 3, abandonedCalls := 4, longestWaiting := none,
               averageWaiting := none, averageTalking := none,
               source := "queue-stat-element" } ∧
    ({ waitingCalls := 2, activeCalls := 0, totalCalls := 9,
       servicedCalls := 3, abandonedCalls := 4, longestWaiting := none,
       averageWaiting := none, averageTalking := none,
       source := "queue-stat-element" } : CallStats).totalCalls
      = 2 + 3 + 4 :=
  ⟨by decide,
   by
    have := claim7_total_calls true
      (some ⟨["Waiting Calls", "Serviced Calls", "Abandoned Calls"],
             ["2", "3", "4"]⟩) false false
      { waitingCalls := 2, activeCalls := 0, totalCalls := 9,
        servicedCalls := 3, abandonedCalls := 4, longestWaiting := none,
        averageWaiting := none, averageTalking := none,
        source := "queue-stat-element" } (by decide)
    exact this.trans (by decide)⟩

/-! ## Claim C8 — debounced observer triggers, immediate interval triggers -/

/-- With an observer timer pending at `ft` and every further observer
trigger arriving before the previous one's 500 ms timer fires, exactly one
collection cycle executes. -/
lemma runDebounce_observer_pending :
    ∀ (ts : List Nat) (ft : Nat),
      List.Chain' (fun a b => b < a + 500) ts →
      (∀ h ∈ ts.head?, h < ft) →
      (runDebounce (ts.map (fun t => (t, TriggerSource.observer))) (some ft)).length = 1 := by
  intro ts
  induction ts with
  | nil => intro ft _ _; rfl
  | cons t rest ih =>
    intro ft hchain hhead
    have ht : t < ft := hhead t (by simp)
    rw [List.chain'_cons'] at hchain
    rw [List.map_cons]
    simp only [runDebounce, if_neg (by omega : ¬ft ≤ t)]
    exact ih (t + debounceDelay TriggerSource.observer) hchain.2
      (fun h hh => by
        have := hchain.1 h hh
        simp only [debounceDelay]
        omega)

/-- Claim C8 (confirmed): when a first mutation (observer) trigger at `t0`
is followed by any number of further observer triggers inside its 500 ms
debounce window, exactly one collection cycle executes for the whole batch;
and an interval trigger is scheduled with zero delay (its cycle runs at the
trigger time itself, no 500 ms wait). -/
theorem claim8_debounce :
    (∀ (t0 : Nat) (ts : List Nat),
      (∀ x ∈ ts, t0 ≤ x ∧ x < t0 + 500) →
      (runDebounce ((t0 :: ts).map (fun t => (t, TriggerSource.observer))) none).length = 1) ∧
    debounceDelay TriggerSource.interval = 0 ∧
    (∀ t : Nat, runDebounce [(t, TriggerSource.interval)] none = [t]) := by
  refine ⟨?_, rfl, fun t => rfl⟩
  intro t0 ts h
  rw [List.map_cons]
  simp only [runDebounce]
  apply runDebounce_observer_pending
  · exact List.Pairwise.chain'
      (List.pairwise_of_forall_mem_list
        (fun a ha b hb => by
          have h1 := (h a ha).1
          have h2 := (h b hb).2
          omega))
  · intro hd hh
    have hmem := List.mem_of_mem_head? hh
    have := (h hd hmem).2
    simp only [debounceDelay]
    omega

/-- Claim C8 witness: four observer triggers inside one 500 ms window
produce exactly one cycle. -/
theorem claim8_debounce_witness :
    (∀ x ∈ [100, 200, 499], 0 ≤ x ∧ x < 0 + 500) ∧
    (runDebounce ((0 :: [100, 200, 499]).map (fun t => (t, TriggerSource.observer))) none).length = 1 :=
  ⟨by decide, claim8_debounce.1 0 [100, 200, 499] (by decide)⟩

/-! ## Claim C9 — screenshot caps and the force override -/

/-- Claim C9 counterexample: with the enable flag off, a `force=true`
request is NOT suppressed — `takeScreenshot` takes the shot anyway, because
line 1963 tests `!config.screenshots.enabled && !force`. -/
theorem claim9_counterexample :
    (takeScreenshot ⟨false, 60000, 20⟩ ⟨0, 0⟩ 0 true true).1 = true := by
  decide

/-- Claim C9 (corrected): a non-forced screenshot request is taken only if
all three caps pass — enable flag set, per-session count below the maximum,
and at least the minimum spacing elapsed since the previous shot — while
`force=true` bypasses all three caps, the enable flag included (only an
unavailable page still prevents the shot). -/
theorem claim9_amended :
    (∀ (cfg : ScreenshotConfig) (st : ScreenshotState) (now : Nat) (pageOk : Bool),
      (takeScreenshot cfg st now false pageOk).1 = true →
      cfg.enabled = true ∧ st.screenshotCount < cfg.maxPerSession ∧
        cfg.minInterval ≤ now - st.lastScreenshotTime) ∧
    (∀ (cfg : ScreenshotConfig) (st : ScreenshotState) (now : Nat),
      (takeScreenshot cfg st now true true).1 = true) := by
  constructor
  · intro cfg st now pageOk h
    simp only [takeScreenshot, Bool.not_false, Bool.and_true] at h
    split_ifs at h with h1 h2 h3 h4
    simp only [decide_eq_true_eq] at h2 h3
    refine ⟨?_, by omega, by omega⟩
    revert h1
    cases cfg.enabled <;> simp
  · intro cfg st now
    simp [takeScreenshot]

/-- Claim C9 witness: a non-forced shot taken at the default caps
(enabled, count 0 of 20, spacing 60000 ms satisfied). -/
theorem claim9_amended_witness :
    (takeScreenshot ⟨true, 60000, 20⟩ ⟨0, 0⟩ 60000 false true).1 = true ∧
    ((⟨true, 60000, 20⟩ : ScreenshotConfig).enabled = true ∧
      (⟨0, 0⟩ : ScreenshotState).screenshotCount
        < (⟨true, 60000, 20⟩ : ScreenshotConfig).maxPerSession ∧
      (⟨true, 60000, 20⟩ : ScreenshotConfig).minInterval
        ≤ 60000 - (⟨0, 0⟩ : ScreenshotState).lastScreenshotTime) :=
  ⟨by decide, claim9_amended.1 ⟨true, 60000, 20⟩ ⟨0, 0⟩ 60000 true (by decide)⟩

/-! ## Claim C10 — unknown status strings are a complete no-op for the LED -/

/-- Claim C10 (confirmed): a status string outside the six `statusColors`
keys — characterized exactly by a `none` lookup — makes
`updateWLEDWithStatus` emit no LED command and no WLED-status broadcast and
resolve `undefined`; in particular the hyphenated normalizer output
`on-call` is such a string. -/
theorem claim10_unknown_status_noop :
    (∀ (s : String) (u : Bool),
      lookupStatusColor s = none → updateWLEDWithStatus s u = (none, [])) ∧
    (∀ s : String, lookupStatusColor s = none ↔ s ∉ statusColors.map Prod.fst) ∧
    lookupStatusColor "on-call" = none := by
  refine ⟨?_, ?_, by decide⟩
  · intro s u h
    simp [updateWLEDWithStatus, h]
  · intro s
    unfold lookupStatusColor
    rw [Option.map_eq_none', List.find?_eq_none]
    constructor
    · intro h hmem
      obtain ⟨kv, hkv, hfst⟩ := List.mem_map.mp hmem
      exact h kv hkv (decide_eq_true hfst)
    · intro h kv hkv hdec
      exact h (List.mem_map.mpr ⟨kv, hkv, of_decide_eq_true hdec⟩)

/-- Claim C10 witness: the no-op at the concrete input `on-call`. -/
theorem claim10_witness :
    lookupStatusColor "on-call" = none ∧
    updateWLEDWithStatus "on-call" true = (none, []) :=
  ⟨by decide, claim10_unknown_status_noop.1 "on-call" true (by decide)⟩

end Wled3cx
